import Mathlib

/-!
Shallow embedding of the oracles repository: the coverage point calculator
(src/coverage_point_calculator/src/lib.rs) and the verifier daemon scheduler
(src/poc_mobile_verifier/src/verifier.rs).

The Rust code computes with rust_decimal::Decimal (a 96-bit scaled decimal);
the embedding uses ℚ. All constants appearing in the code are exactly
representable, so the two agree on every computation below.
-/

namespace Oracles

/-- Observed coverage strength for a hex (lib.rs `SignalLevel`). -/
inductive SignalLevel
  | high
  | medium
  | low
  | none
deriving DecidableEq, Repr

/-- Physical radio category (lib.rs `RadioType`). -/
inductive RadioType
  | indoorWifi
  | outdoorWifi
  | indoorCbrs
  | outdoorCbrs
deriving DecidableEq, Repr

/-- Per-hex land classification axis (lib.rs `Assignment`). -/
inductive Assignment
  | A
  | B
  | C
deriving DecidableEq, Repr

/-- Composite classification of a hex (lib.rs `Assignments`). -/
structure Assignments where
  footfall : Assignment
  landtype : Assignment
  urbanized : Assignment
deriving DecidableEq, Repr

/-- One location-trust sample (lib.rs `LocationTrust`).
`distance_to_asserted` is `Meters(u32)`, `trust_score` a Decimal. -/
structure LocationTrust where
  distance_to_asserted : ℕ
  trust_score : ℚ
deriving DecidableEq, Repr

/-- One hex covered by a radio (lib.rs `CoveredHex`).
`rank` is `NonZeroUsize`, `boosted` an `Option<NonZeroU32>`. -/
structure CoveredHex where
  rank : ℕ+
  signal_level : SignalLevel
  assignments : Assignments
  boosted : Option ℕ+
deriving DecidableEq, Repr

/-- Modelled from the spec: the speedtest module
(src/coverage_point_calculator/src/speedtest.rs, declared by
`pub mod speedtest` in lib.rs) is not present under src/. A `Speedtest`
holds upload rate, download rate (bytes per second) and latency (millis),
per section 6 of the spec. -/
structure Speedtest where
  upload_speed : ℕ
  download_speed : ℕ
  latency : ℕ
deriving DecidableEq, Repr

/-- Modelled from the spec: the speedtest tiers with their multipliers,
matching the degradation ladder of section 8 of the spec
(download at or above 100 Mbps gives 1.00, then 0.75, 0.50, 0.25, and the
Fail tier gives 0). -/
inductive SpeedtestTier
  | good
  | acceptable
  | degraded
  | poor
  | fail
deriving DecidableEq, Repr

/-- Modelled from the spec: tier multipliers (section 8 of the spec). -/
def SpeedtestTier.multiplier : SpeedtestTier → ℚ
  | .good => 1
  | .acceptable => 0.75
  | .degraded => 0.50
  | .poor => 0.25
  | .fail => 0

/-- Modelled from the spec: the tier of a speedtest, read off the download
axis only. Section 8 fixes upload and latency at passing values and gives:
100 Mbps → 1.00, 88 Mbps → 0.75, 62 Mbps → 0.50, 42 Mbps → 0.25,
25 Mbps → 0; thresholds 100/75/50/30 Mbps (in bytes per second,
1 Mbps = 125000 B/s) reproduce every listed data point. -/
def Speedtest.tier (s : Speedtest) : SpeedtestTier :=
  if 12500000 ≤ s.download_speed then .good
  else if 9375000 ≤ s.download_speed then .acceptable
  else if 6250000 ≤ s.download_speed then .degraded
  else if 3750000 ≤ s.download_speed then .poor
  else .fail

/-- Modelled from the spec: `Speedtest::avg` averages the samples
field-wise (section 6 of the spec: `average(samples) -> Speedtest`). -/
def Speedtest.avg (ts : List Speedtest) : Speedtest :=
  { upload_speed := (ts.map Speedtest.upload_speed).sum / ts.length
    download_speed := (ts.map Speedtest.download_speed).sum / ts.length
    latency := (ts.map Speedtest.latency).sum / ts.length }

/-- Fully assembled scoring input for one radio (lib.rs `RewardableRadio`). -/
structure RewardableRadio where
  radio_type : RadioType
  speedtests : List Speedtest
  location_trust_scores : List LocationTrust
  verified_radio_threshold : Bool
  hexes : List CoveredHex
deriving DecidableEq, Repr

/-- Scoring result (lib.rs `CoveragePoints`). -/
structure CoveragePoints where
  coverage_points : ℚ
  radio : RewardableRadio
deriving DecidableEq, Repr

/-- lib.rs `RadioType::base_coverage_points`. The two indoor arms panic on
Medium and None signal levels; the panic is modelled as `Option.none`. -/
def RadioType.base_coverage_points : RadioType → SignalLevel → Option ℚ
  | .indoorWifi, .high => some 400
  | .indoorWifi, .low => some 100
  | .indoorWifi, _ => Option.none
  | .outdoorWifi, .high => some 16
  | .outdoorWifi, .medium => some 8
  | .outdoorWifi, .low => some 4
  | .outdoorWifi, .none => some 0
  | .indoorCbrs, .high => some 100
  | .indoorCbrs, .low => some 25
  | .indoorCbrs, _ => Option.none
  | .outdoorCbrs, .high => some 4
  | .outdoorCbrs, .medium => some 2
  | .outdoorCbrs, .low => some 1
  | .outdoorCbrs, .none => some 0

/-- lib.rs `RadioType::rank_multipliers`. -/
def RadioType.rank_multipliers : RadioType → List ℚ
  | .indoorWifi => [1]
  | .indoorCbrs => [1]
  | .outdoorWifi => [1, 0.5, 0.25]
  | .outdoorCbrs => [1, 0.5, 0.25]

/-- lib.rs `Assignments::multiplier`: the 27-entry match table. -/
def Assignments.multiplier (a : Assignments) : ℚ :=
  match a.footfall, a.landtype, a.urbanized with
  | .A, .A, .A => 1.00
  | .A, .B, .A => 1.00
  | .A, .C, .A => 1.00
  | .A, .A, .B => 1.00
  | .A, .B, .B => 1.00
  | .A, .C, .B => 1.00
  | .B, .A, .A => 0.70
  | .B, .B, .A => 0.70
  | .B, .C, .A => 0.70
  | .B, .A, .B => 0.50
  | .B, .B, .B => 0.50
  | .B, .C, .B => 0.50
  | .C, .A, .A => 0.40
  | .C, .B, .A => 0.30
  | .C, .C, .A => 0.05
  | .C, .A, .B => 0.20
  | .C, .B, .B => 0.15
  | .C, .C, .B => 0.03
  | _, _, .C => 0.00

/-- lib.rs `RewardableRadio::any_hexes_boosted`. -/
def RewardableRadio.any_hexes_boosted (r : RewardableRadio) : Bool :=
  r.hexes.any fun hex => hex.boosted.isSome

/-- lib.rs `RewardableRadio::location_trust_multiplier`. Cbrs radio types
return 1 before touching the sample list. For the other types the Rust code
divides the trust-score sum by the sample count; rust_decimal division by
zero panics, modelled as `Option.none` when the list is empty. -/
def RewardableRadio.location_trust_multiplier (r : RewardableRadio) : Option ℚ :=
  match r.radio_type with
  | .indoorCbrs => some 1
  | .outdoorCbrs => some 1
  | _ =>
    let trust_score_sum : ℚ :=
      if r.any_hexes_boosted then
        (r.location_trust_scores.map fun l =>
          if 50 < l.distance_to_asserted then min 0.25 l.trust_score
          else l.trust_score).sum
      else
        (r.location_trust_scores.map fun l => l.trust_score).sum
    let trust_score_count := r.location_trust_scores.length
    if trust_score_count = 0 then Option.none
    else some (trust_score_sum / (trust_score_count : ℚ))

/-- lib.rs `RewardableRadio::hex_boosting_multiplier`. -/
def RewardableRadio.hex_boosting_multiplier (r : RewardableRadio)
    (hex : CoveredHex) : ℚ :=
  if r.verified_radio_threshold then
    match hex.boosted with
    | some boost => ((boost : ℕ) : ℚ)
    | Option.none => 1
  else 1

/-- lib.rs `RewardableRadio::speedtest_multiplier`: fewer than 2 samples
fall to the Fail tier, otherwise the tier of the averaged samples. -/
def RewardableRadio.speedtest_multiplier (r : RewardableRadio) : ℚ :=
  if r.speedtests.length < 2 then SpeedtestTier.fail.multiplier
  else (Speedtest.avg r.speedtests).tier.multiplier

/-- Sequence a fallible map over a list, failing if any element fails
(the panic of any element of the Rust iterator aborts the whole sum). -/
def optionTraverse (f : α → Option β) : List α → Option (List β)
  | [] => some []
  | x :: xs =>
    match f x, optionTraverse f xs with
    | some y, some ys => some (y :: ys)
    | _, _ => Option.none

/-- `Decimal::round_dp_with_strategy(2, RoundingStrategy::ToZero)`:
truncate toward zero at 2 decimal places. -/
def roundDp2ToZero (q : ℚ) : ℚ :=
  (if 0 ≤ q * 100 then (⌊q * 100⌋ : ℚ) else (⌈q * 100⌉ : ℚ)) / 100

/-- The per-hex product of lib.rs `calculate_coverage_points` lines 81-88:
base points times assignment, rank and boost multipliers. `Option.none`
records the base-points panic for indoor radios. -/
def hexPoint (radio : RewardableRadio) (hex : CoveredHex) : Option ℚ :=
  (radio.radio_type.base_coverage_points hex.signal_level).map fun base =>
    base * hex.assignments.multiplier
      * (radio.radio_type.rank_multipliers.getD (hex.rank.val - 1) 0)
      * radio.hex_boosting_multiplier hex

/-- lib.rs `calculate_coverage_points` lines 77-88: keep the hexes whose
rank is within the radio type's rank-multiplier table and score each. -/
def covered_hex_points (radio : RewardableRadio) : Option (List ℚ) :=
  optionTraverse (hexPoint radio)
    (radio.hexes.filter fun hex =>
      hex.rank.val ≤ radio.radio_type.rank_multipliers.length)

/-- lib.rs `calculate_coverage_points`: sum the admissible hex points,
apply the location-trust and speedtest multipliers, truncate toward zero at
2 decimal places. `Option.none` records the two panics (indoor invalid
signal level; division by zero on an empty trust-sample list). -/
def calculate_coverage_points (radio : RewardableRadio) : Option CoveragePoints :=
  match covered_hex_points radio, radio.location_trust_multiplier with
  | some points, some location_score =>
    some { coverage_points :=
             roundDp2ToZero (points.sum * location_score * radio.speedtest_multiplier)
           radio := radio }
  | _, _ => Option.none

/-- The `coverage_points` field of a successful calculation. -/
def covPoints (radio : RewardableRadio) : Option ℚ :=
  (calculate_coverage_points radio).map fun c => c.coverage_points

/-- The product of lib.rs line 94, before the truncation of line 95. -/
def rawCoverage (radio : RewardableRadio) : Option ℚ :=
  match covered_hex_points radio, radio.location_trust_multiplier with
  | some points, some location_score =>
    some (points.sum * location_score * radio.speedtest_multiplier)
  | _, _ => Option.none

/-! ## Spec-side definitions

These restate formulas in the words of the specification, to be compared
with the definitions translated from the source. -/

/-- Written from the spec: the base coverage point table as the spec spells
it: Indoor Wifi High=400, Low=100; Outdoor Wifi High=16, Medium=8, Low=4,
None=0; Indoor Cbrs High=100, Low=25; Outdoor Cbrs High=4, Medium=2, Low=1,
None=0; Medium and None are invalid for the indoor types. -/
def spec_base_table : RadioType → SignalLevel → Option ℚ
  | .indoorWifi, .high => some 400
  | .indoorWifi, .low => some 100
  | .outdoorWifi, .high => some 16
  | .outdoorWifi, .medium => some 8
  | .outdoorWifi, .low => some 4
  | .outdoorWifi, .none => some 0
  | .indoorCbrs, .high => some 100
  | .indoorCbrs, .low => some 25
  | .outdoorCbrs, .high => some 4
  | .outdoorCbrs, .medium => some 2
  | .outdoorCbrs, .low => some 1
  | .outdoorCbrs, .none => some 0
  | _, _ => Option.none

/-- Written from the spec: the sum, over every hex whose rank is within the
radio type's max rank, of base points times assignment, rank and boost
multipliers. -/
def spec_hex_sum (radio : RewardableRadio) : ℚ :=
  ((radio.hexes.filter fun hex =>
      hex.rank.val ≤ radio.radio_type.rank_multipliers.length).map fun hex =>
    (spec_base_table radio.radio_type hex.signal_level).getD 0
      * hex.assignments.multiplier
      * radio.radio_type.rank_multipliers.getD (hex.rank.val - 1) 0
      * radio.hex_boosting_multiplier hex).sum

/-- Written from the spec: the average of the trust scores, where a sample
farther than 50 meters from the asserted location is capped at
min 0.25 its score whenever any hex of the radio carries a boost. -/
def spec_location_trust_avg (radio : RewardableRadio) : ℚ :=
  ((radio.location_trust_scores.map fun l =>
      if radio.any_hexes_boosted ∧ 50 < l.distance_to_asserted then
        min 0.25 l.trust_score
      else l.trust_score).sum)
    / ((radio.location_trust_scores.length : ℕ) : ℚ)

/-- Written from the spec: the assignment multiplier rules as the spec
states them: urbanized C forces 0; footfall A gives 1; footfall B gives
0.70 or 0.50 by urbanized A or B; footfall C branches on landtype. -/
def spec_assignment_multiplier (a : Assignments) : ℚ :=
  if a.urbanized = .C then 0.00
  else
    match a.footfall with
    | .A => 1.00
    | .B => if a.urbanized = .A then 0.70 else 0.50
    | .C =>
      match a.landtype with
      | .A => if a.urbanized = .A then 0.40 else 0.20
      | .B => if a.urbanized = .A then 0.30 else 0.15
      | .C => if a.urbanized = .A then 0.05 else 0.03

/-! ## Helper lemmas -/

lemma spec_base_table_eq (rt : RadioType) (sl : SignalLevel) :
    spec_base_table rt sl = rt.base_coverage_points sl := by
  cases rt <;> cases sl <;> rfl

lemma optionTraverse_eq_none_iff (f : α → Option β) (xs : List α) :
    optionTraverse f xs = Option.none ↔ ∃ x ∈ xs, f x = Option.none := by
  induction xs with
  | nil => simp [optionTraverse]
  | cons x xs ih =>
    simp only [optionTraverse]
    cases hfx : f x <;> cases hxs : optionTraverse f xs <;> simp_all

lemma optionTraverse_some_map {f : α → Option β} {g : α → β}
    (hfg : ∀ x y, f x = some y → y = g x) :
    ∀ {xs : List α} {ys : List β}, optionTraverse f xs = some ys → ys = xs.map g := by
  intro xs
  induction xs with
  | nil => intro ys h; simp [optionTraverse] at h; simp [h.symm]
  | cons x xs ih =>
    intro ys h
    simp only [optionTraverse] at h
    cases hfx : f x with
    | none => rw [hfx] at h; cases h
    | some y =>
      rw [hfx] at h
      cases hxs : optionTraverse f xs with
      | none => rw [hxs] at h; cases h
      | some zs =>
        rw [hxs] at h
        cases h
        simp [hfg x y hfx, ih hxs]

lemma covered_hex_points_sum (radio : RewardableRadio) (points : List ℚ)
    (h : covered_hex_points radio = some points) :
    points.sum = spec_hex_sum radio := by
  have hmap := optionTraverse_some_map (f := hexPoint radio)
    (g := fun hex =>
      (spec_base_table radio.radio_type hex.signal_level).getD 0
        * hex.assignments.multiplier
        * radio.radio_type.rank_multipliers.getD (hex.rank.val - 1) 0
        * radio.hex_boosting_multiplier hex)
    (fun hex y hy => by
      rw [hexPoint] at hy
      cases hb : radio.radio_type.base_coverage_points hex.signal_level with
      | none => rw [hb] at hy; cases hy
      | some b =>
        rw [hb] at hy
        simp only [spec_base_table_eq, hb]
        simpa using hy.symm)
    h
  rw [hmap, spec_hex_sum]

/-! ## Concrete inputs for witnesses and counterexamples -/

def bestAssign : Assignments := ⟨.A, .A, .A⟩

/-- Two passing speedtest samples (download 150 Mbps, upload 15 Mbps). -/
def goodTests : List Speedtest := [⟨1875000, 18750000, 15⟩, ⟨1875000, 18750000, 15⟩]

def trustNear : LocationTrust := ⟨0, 1⟩

def trustFar : LocationTrust := ⟨51, 1⟩

def hexHighR1 : CoveredHex := ⟨1, .high, bestAssign, Option.none⟩

def hexLowBoost4 : CoveredHex := ⟨1, .low, bestAssign, some 4⟩

/-! ## Claims -/

/-- C1: for every rewardable radio, a successful calculation returns the
sum over every hex with rank within the max rank of the spec base table
value times the assignment, rank and hex-boost multipliers, all times the
location-trust and speedtest multipliers, truncated toward zero at 2
decimal places. -/
theorem claim_C1 (radio : RewardableRadio) (cp : CoveragePoints) (lt : ℚ)
    (hcp : calculate_coverage_points radio = some cp)
    (hlt : radio.location_trust_multiplier = some lt) :
    cp.coverage_points
      = roundDp2ToZero (spec_hex_sum radio * lt * radio.speedtest_multiplier) := by
  rw [calculate_coverage_points] at hcp
  cases hpts : covered_hex_points radio with
  | none => rw [hpts] at hcp; cases hcp
  | some points =>
    rw [hpts, hlt] at hcp
    cases hcp
    show roundDp2ToZero (points.sum * lt * radio.speedtest_multiplier) = _
    rw [covered_hex_points_sum radio points hpts]

def c1rad : RewardableRadio := ⟨.indoorWifi, goodTests, [trustNear], true, [hexHighR1]⟩

/-- Witness for C1 at a concrete radio worth 400 points. -/
theorem claim_C1_witness :
    (⟨400, c1rad⟩ : CoveragePoints).coverage_points
      = roundDp2ToZero (spec_hex_sum c1rad * 1 * c1rad.speedtest_multiplier) :=
  claim_C1 c1rad ⟨400, c1rad⟩ 1
    (by norm_num [calculate_coverage_points, covered_hex_points, optionTraverse,
      hexPoint, c1rad, hexHighR1, bestAssign, goodTests, trustNear,
      RadioType.base_coverage_points, RadioType.rank_multipliers,
      Assignments.multiplier, RewardableRadio.hex_boosting_multiplier,
      RewardableRadio.location_trust_multiplier, RewardableRadio.any_hexes_boosted,
      RewardableRadio.speedtest_multiplier, Speedtest.avg, Speedtest.tier,
      SpeedtestTier.multiplier, roundDp2ToZero, List.filter])
    (by norm_num [RewardableRadio.location_trust_multiplier,
      RewardableRadio.any_hexes_boosted, c1rad, hexHighR1, trustNear])

/-- C3: the location trust multiplier is 1 for Cbrs radio types; for Wifi
radio types with at least one sample it is the average of the trust scores
after capping each sample farther than 50 meters from the asserted location
at min 0.25 its score whenever any hex of the radio carries a boost. -/
theorem claim_C3 (radio : RewardableRadio) :
    ((radio.radio_type = .indoorCbrs ∨ radio.radio_type = .outdoorCbrs) →
      radio.location_trust_multiplier = some 1) ∧
    ((radio.radio_type = .indoorWifi ∨ radio.radio_type = .outdoorWifi) →
      radio.location_trust_scores ≠ [] →
      radio.location_trust_multiplier = some (spec_location_trust_avg radio)) := by
  obtain ⟨rt, sts, lts, v, hx⟩ := radio
  constructor
  · rintro (h | h) <;> (cases h; rfl)
  · rintro (h | h) hne <;> cases h <;>
      (simp only [RewardableRadio.location_trust_multiplier, spec_location_trust_avg,
        List.length_eq_zero, hne, if_false]
       cases hb : RewardableRadio.any_hexes_boosted ⟨_, sts, lts, v, hx⟩ <;>
         simp [hb])

def c3rad : RewardableRadio :=
  ⟨.indoorWifi, goodTests, [trustFar, trustNear], true, [hexLowBoost4]⟩

/-- Witness for C3 at a concrete boosted Wifi radio with one far sample. -/
theorem claim_C3_witness :
    c3rad.location_trust_multiplier = some (spec_location_trust_avg c3rad) :=
  (claim_C3 c3rad).2 (Or.inl rfl) (by decide)

/-- A rank-1 High-signal hex with the given assignment triple. -/
def hexWith (f l u : Assignment) : CoveredHex :=
  ⟨1, .high, ⟨f, l, u⟩, Option.none⟩

/-- One rank-1 High-signal Indoor-Cbrs hex for each of the 27 assignment
combinations. -/
def c5rad : RewardableRadio :=
  ⟨.indoorCbrs, goodTests, [trustNear], true,
    [hexWith .A .A .A, hexWith .A .A .B, hexWith .A .A .C,
     hexWith .A .B .A, hexWith .A .B .B, hexWith .A .B .C,
     hexWith .A .C .A, hexWith .A .C .B, hexWith .A .C .C,
     hexWith .B .A .A, hexWith .B .A .B, hexWith .B .A .C,
     hexWith .B .B .A, hexWith .B .B .B, hexWith .B .B .C,
     hexWith .B .C .A, hexWith .B .C .B, hexWith .B .C .C,
     hexWith .C .A .A, hexWith .C .A .B, hexWith .C .A .C,
     hexWith .C .B .A, hexWith .C .B .B, hexWith .C .B .C,
     hexWith .C .C .A, hexWith .C .C .B, hexWith .C .C .C]⟩

/-- C5: the assignment multiplier agrees with the rules as the spec states
them on all 27 combinations, and the 27-hex Indoor-Cbrs example radio
totals 1073 coverage points. -/
theorem claim_C5 :
    (∀ a : Assignments, a.multiplier = spec_assignment_multiplier a) ∧
    covPoints c5rad = some 1073 := by
  constructor
  · intro a
    obtain ⟨f, l, u⟩ := a
    cases f <;> cases l <;> cases u <;> rfl
  · norm_num [covPoints, calculate_coverage_points, covered_hex_points, optionTraverse,
      hexPoint, c5rad, hexWith, goodTests, trustNear,
      RadioType.base_coverage_points, RadioType.rank_multipliers,
      Assignments.multiplier, RewardableRadio.hex_boosting_multiplier,
      RewardableRadio.location_trust_multiplier, RewardableRadio.any_hexes_boosted,
      RewardableRadio.speedtest_multiplier, Speedtest.avg, Speedtest.tier,
      SpeedtestTier.multiplier, roundDp2ToZero, List.filter]

/-- Indoor-Wifi radio with one rank-1 High hex, full trust at 51 meters. -/
def c2_base : RewardableRadio := ⟨.indoorWifi, goodTests, [trustFar], true, [hexHighR1]⟩

/-- A rank-2 hex carrying a x2 boost: out of range for an indoor radio. -/
def c2_boosted_bad_hex : CoveredHex := ⟨2, .high, bestAssign, some 2⟩

def c2_extra : RewardableRadio := {c2_base with hexes := c2_boosted_bad_hex :: c2_base.hexes}

/-- A rank-2 hex carrying no boost. -/
def c2_plain_bad_hex : CoveredHex := ⟨2, .high, bestAssign, Option.none⟩

/-- C2 counterexample: adding a hex of rank 2 (above the Indoor-Wifi max
rank 1) that carries a boost moves coverage points from 400 to 100: the
out-of-range hex still flips `any_hexes_boosted` and with it the
location-trust cap of the 51-meter sample, so totals are not identical. -/
theorem claim_C2_counterexample :
    c2_extra.hexes = c2_boosted_bad_hex :: c2_base.hexes ∧
    c2_base.radio_type.rank_multipliers.length < c2_boosted_bad_hex.rank.val ∧
    covPoints c2_base = some 400 ∧
    covPoints c2_extra = some 100 := by
  refine ⟨rfl, by decide, ?_, ?_⟩ <;>
    norm_num [covPoints, calculate_coverage_points, covered_hex_points, optionTraverse,
      hexPoint, c2_base, c2_extra, c2_boosted_bad_hex, hexHighR1, bestAssign, goodTests,
      trustFar, RadioType.base_coverage_points, RadioType.rank_multipliers,
      Assignments.multiplier, RewardableRadio.hex_boosting_multiplier,
      RewardableRadio.location_trust_multiplier, RewardableRadio.any_hexes_boosted,
      RewardableRadio.speedtest_multiplier, Speedtest.avg, Speedtest.tier,
      SpeedtestTier.multiplier, roundDp2ToZero, List.filter]

/-- C2 (amended): adding (or removing) a hex whose rank exceeds the radio
type's max rank leaves coverage points identical provided the hex carries
no boost; an out-of-range hex that does carry a boost still influences the
location-trust cap. -/
theorem claim_C2_amended (radio : RewardableRadio) (hex : CoveredHex)
    (hrank : radio.radio_type.rank_multipliers.length < hex.rank.val)
    (hboost : hex.boosted = Option.none) :
    covPoints {radio with hexes := hex :: radio.hexes} = covPoints radio := by
  obtain ⟨rt, sts, lts, v, hx⟩ := radio
  have hanyb : RewardableRadio.any_hexes_boosted ⟨rt, sts, lts, v, hex :: hx⟩
      = RewardableRadio.any_hexes_boosted ⟨rt, sts, lts, v, hx⟩ := by
    simp [RewardableRadio.any_hexes_boosted, hboost]
  have hltm : RewardableRadio.location_trust_multiplier ⟨rt, sts, lts, v, hex :: hx⟩
      = RewardableRadio.location_trust_multiplier ⟨rt, sts, lts, v, hx⟩ := by
    cases rt <;> simp [RewardableRadio.location_trust_multiplier, hanyb]
  have hdec : (decide (hex.rank.val ≤ (RadioType.rank_multipliers rt).length)) = false :=
    decide_eq_false (not_le.mpr hrank)
  have hchp : covered_hex_points ⟨rt, sts, lts, v, hex :: hx⟩
      = covered_hex_points ⟨rt, sts, lts, v, hx⟩ := by
    simp only [covered_hex_points, List.filter_cons, hdec]
    rfl
  simp only [covPoints, calculate_coverage_points, hchp, hltm]
  cases hc : covered_hex_points ⟨rt, sts, lts, v, hx⟩ with
  | none => rfl
  | some points =>
    cases hl : RewardableRadio.location_trust_multiplier ⟨rt, sts, lts, v, hx⟩ with
    | none => rfl
    | some location_score => rfl

/-- Witness for the amended C2 at a concrete radio and boost-free hex. -/
theorem claim_C2_amended_witness :
    covPoints {c2_base with hexes := c2_plain_bad_hex :: c2_base.hexes} = covPoints c2_base :=
  claim_C2_amended c2_base c2_plain_bad_hex (by decide) rfl

/-- Indoor-Wifi radio with a High hex and a boosted x4 Low hex, verified. -/
def c4_verified : RewardableRadio :=
  ⟨.indoorWifi, goodTests, [trustNear], true, [hexHighR1, hexLowBoost4]⟩

def c4_unverified : RewardableRadio := {c4_verified with verified_radio_threshold := false}

/-- Unverified Indoor-Wifi radio, one High hex, full trust at 51 meters. -/
def c4_flag_off : RewardableRadio := ⟨.indoorWifi, goodTests, [trustFar], false, [hexHighR1]⟩

def c4_flag_on : RewardableRadio :=
  ⟨.indoorWifi, goodTests, [trustFar], false, [⟨1, .high, bestAssign, some 4⟩]⟩

/-- C4 counterexample: on a radio with `verified_radio_threshold = false`,
turning on a hex's boost flag moves coverage points from 400 to 100: the
flag still triggers the location-trust cap of the 51-meter sample, so
boosting is not without effect on unverified radios. -/
theorem claim_C4_counterexample :
    c4_flag_off.verified_radio_threshold = false ∧
    c4_flag_on = {c4_flag_off with hexes := [⟨1, .high, bestAssign, some 4⟩]} ∧
    c4_flag_off.hexes = [⟨1, .high, bestAssign, Option.none⟩] ∧
    covPoints c4_flag_off = some 400 ∧
    covPoints c4_flag_on = some 100 := by
  refine ⟨rfl, rfl, rfl, ?_, ?_⟩ <;>
    norm_num [covPoints, calculate_coverage_points, covered_hex_points, optionTraverse,
      hexPoint, c4_flag_off, c4_flag_on, hexHighR1, bestAssign, goodTests,
      trustFar, RadioType.base_coverage_points, RadioType.rank_multipliers,
      Assignments.multiplier, RewardableRadio.hex_boosting_multiplier,
      RewardableRadio.location_trust_multiplier, RewardableRadio.any_hexes_boosted,
      RewardableRadio.speedtest_multiplier, Speedtest.avg, Speedtest.tier,
      SpeedtestTier.multiplier, roundDp2ToZero, List.filter]

/-- C4 (amended): with `verified_radio_threshold = true` each hex's boost
multiplier is its boosted factor (1 when absent); with false it is always
1, so boosting cannot change the per-hex base points of an unverified
radio (though a boost flag may still lower its location-trust multiplier);
the Indoor-Wifi example totals 800 verified and 500 unverified. -/
theorem claim_C4_amended (radio : RewardableRadio) (hex : CoveredHex) :
    (radio.verified_radio_threshold = true →
      radio.hex_boosting_multiplier hex
        = (((hex.boosted.map fun b => (b : ℕ)).getD 1 : ℕ) : ℚ)) ∧
    (radio.verified_radio_threshold = false →
      radio.hex_boosting_multiplier hex = 1) ∧
    covPoints c4_verified = some 800 ∧
    covPoints c4_unverified = some 500 := by
  refine ⟨?_, ?_, ?_, ?_⟩
  · intro h
    cases hb : hex.boosted <;>
      simp [RewardableRadio.hex_boosting_multiplier, h, hb]
  · intro h
    simp [RewardableRadio.hex_boosting_multiplier, h]
  all_goals
    norm_num [covPoints, calculate_coverage_points, covered_hex_points, optionTraverse,
      hexPoint, c4_verified, c4_unverified, hexHighR1, hexLowBoost4, bestAssign,
      goodTests, trustNear, RadioType.base_coverage_points, RadioType.rank_multipliers,
      Assignments.multiplier, RewardableRadio.hex_boosting_multiplier,
      RewardableRadio.location_trust_multiplier, RewardableRadio.any_hexes_boosted,
      RewardableRadio.speedtest_multiplier, Speedtest.avg, Speedtest.tier,
      SpeedtestTier.multiplier, roundDp2ToZero, List.filter]

/-- Witness for the amended C4 at a concrete radio and boosted hex. -/
theorem claim_C4_amended_witness :
    c4_verified.hex_boosting_multiplier hexLowBoost4
      = (((hexLowBoost4.boosted.map fun b => (b : ℕ)).getD 1 : ℕ) : ℚ) ∧
    c4_unverified.hex_boosting_multiplier hexLowBoost4 = 1 :=
  ⟨(claim_C4_amended c4_verified hexLowBoost4).1 rfl,
   (claim_C4_amended c4_unverified hexLowBoost4).2.1 rfl⟩

lemma base_coverage_points_eq_none_iff (rt : RadioType) (sl : SignalLevel) :
    rt.base_coverage_points sl = Option.none ↔
      ((rt = .indoorWifi ∨ rt = .indoorCbrs) ∧
       (sl = .medium ∨ sl = .none)) := by
  cases rt <;> cases sl <;> decide

lemma location_trust_multiplier_eq_none_iff (radio : RewardableRadio) :
    radio.location_trust_multiplier = Option.none ↔
      ((radio.radio_type = .indoorWifi ∨ radio.radio_type = .outdoorWifi) ∧
       radio.location_trust_scores = []) := by
  obtain ⟨rt, sts, lts, v, hx⟩ := radio
  cases rt <;>
    simp only [RewardableRadio.location_trust_multiplier] <;>
    simp [List.length_eq_zero]

/-- The Indoor-Cbrs radio with an admissible Medium-signal hex: the failing
input of C8. -/
def c8rad : RewardableRadio :=
  ⟨.indoorCbrs, goodTests, [trustNear], true, [⟨1, .medium, bestAssign, Option.none⟩]⟩

/-- C8: with at least one location-trust sample (the well-formedness
condition of the data model), the calculation fails exactly when an indoor
radio type carries a rank-1 hex whose signal level is Medium or None. -/
theorem claim_C8 (radio : RewardableRadio)
    (hsamp : radio.location_trust_scores ≠ []) :
    calculate_coverage_points radio = Option.none ↔
      ((radio.radio_type = .indoorWifi ∨ radio.radio_type = .indoorCbrs) ∧
       ∃ hex ∈ radio.hexes, hex.rank.val = 1 ∧
         (hex.signal_level = .medium ∨ hex.signal_level = .none)) := by
  obtain ⟨lt, hlt⟩ : ∃ lt, radio.location_trust_multiplier = some lt := by
    cases h : radio.location_trust_multiplier with
    | none =>
      rw [location_trust_multiplier_eq_none_iff] at h
      exact absurd h.2 hsamp
    | some lt => exact ⟨lt, rfl⟩
  have hlen1 : ∀ rt : RadioType, (rt = .indoorWifi ∨ rt = .indoorCbrs) →
      rt.rank_multipliers.length = 1 := by
    rintro rt (h | h) <;> cases h <;> rfl
  constructor
  · intro hnone
    rw [calculate_coverage_points] at hnone
    cases hchp : covered_hex_points radio with
    | some points => rw [hchp, hlt] at hnone; cases hnone
    | none =>
      rw [covered_hex_points, optionTraverse_eq_none_iff] at hchp
      obtain ⟨hex, hmem, hfx⟩ := hchp
      rw [List.mem_filter] at hmem
      obtain ⟨hmem, hrank⟩ := hmem
      have hbase : radio.radio_type.base_coverage_points hex.signal_level
          = Option.none := by
        cases hb : radio.radio_type.base_coverage_points hex.signal_level with
        | none => rfl
        | some b => rw [hexPoint, hb] at hfx; cases hfx
      rw [base_coverage_points_eq_none_iff] at hbase
      obtain ⟨hind, hsig⟩ := hbase
      refine ⟨hind, hex, hmem, ?_, hsig⟩
      have hlen := hlen1 radio.radio_type hind
      rw [hlen] at hrank
      have hle : hex.rank.val ≤ 1 := by simpa using hrank
      have hpos : 0 < hex.rank.val := hex.rank.property
      omega
  · rintro ⟨hind, hex, hmem, hrank1, hsig⟩
    have hchp : covered_hex_points radio = Option.none := by
      rw [covered_hex_points, optionTraverse_eq_none_iff]
      refine ⟨hex, ?_, ?_⟩
      · rw [List.mem_filter]
        refine ⟨hmem, ?_⟩
        rw [hlen1 radio.radio_type hind]
        simp [hrank1]
      · rw [hexPoint,
          (base_coverage_points_eq_none_iff radio.radio_type hex.signal_level).mpr
            ⟨hind, hsig⟩]
        rfl
    rw [calculate_coverage_points, hchp, hlt]

/-- Witness for C8: the Indoor-Cbrs radio with a rank-1 Medium hex fails. -/
theorem claim_C8_witness : calculate_coverage_points c8rad = Option.none :=
  (claim_C8 c8rad (by decide)).mpr
    ⟨Or.inr rfl, ⟨1, .medium, bestAssign, Option.none⟩, by decide, rfl, Or.inl rfl⟩

def c10_cbrs : RewardableRadio := ⟨.outdoorCbrs, goodTests, [], true, [hexHighR1]⟩

def c10_wifi : RewardableRadio := ⟨.outdoorWifi, goodTests, [], true, [hexHighR1]⟩

/-- C10: with zero location-trust samples, a Cbrs radio type still gets a
location trust multiplier of 1 (whatever the sample list holds) and the
calculation succeeds exactly when the hex scoring part does; a Wifi radio
type hits the division by zero and the calculation fails. -/
theorem claim_C10 (radio : RewardableRadio)
    (hsamp : radio.location_trust_scores = []) :
    ((radio.radio_type = .indoorCbrs ∨ radio.radio_type = .outdoorCbrs) →
      radio.location_trust_multiplier = some 1 ∧
      (∀ ls, RewardableRadio.location_trust_multiplier
          {radio with location_trust_scores := ls} = some 1) ∧
      ((calculate_coverage_points radio).isSome ↔ (covered_hex_points radio).isSome)) ∧
    ((radio.radio_type = .indoorWifi ∨ radio.radio_type = .outdoorWifi) →
      calculate_coverage_points radio = Option.none) := by
  obtain ⟨rt, sts, lts, v, hx⟩ := radio
  have hlts : lts = [] := hsamp
  subst hlts
  constructor
  · rintro (h | h) <;> cases h <;>
      refine ⟨rfl, fun ls => rfl, ?_⟩ <;>
      (rw [calculate_coverage_points]
       cases hchp : covered_hex_points ⟨_, sts, [], v, hx⟩ <;> simp [hchp]) <;>
      rfl
  · rintro (h | h) <;> cases h <;>
      (rw [calculate_coverage_points]
       cases hchp : covered_hex_points ⟨_, sts, [], v, hx⟩ <;> rfl)

/-- Witness for C10 at concrete zero-sample radios of each branch. -/
theorem claim_C10_witness :
    c10_cbrs.location_trust_multiplier = some 1 ∧
    calculate_coverage_points c10_wifi = Option.none :=
  ⟨((claim_C10 c10_cbrs rfl).1 (Or.inr rfl)).1,
   (claim_C10 c10_wifi rfl).2 (Or.inr rfl)⟩

lemma optionTraverse_mem_some {f : α → Option β} :
    ∀ {xs : List α} {ys : List β}, optionTraverse f xs = some ys →
      ∀ y ∈ ys, ∃ x ∈ xs, f x = some y := by
  intro xs
  induction xs with
  | nil =>
    intro ys h y hy
    simp [optionTraverse] at h
    subst h
    cases hy
  | cons x xs ih =>
    intro ys h y hy
    simp only [optionTraverse] at h
    cases hfx : f x with
    | none => rw [hfx] at h; cases h
    | some z =>
      rw [hfx] at h
      cases hxs : optionTraverse f xs with
      | none => rw [hxs] at h; cases h
      | some zs =>
        rw [hxs] at h
        cases h
        rcases List.mem_cons.mp hy with hy | hy
        · exact ⟨x, List.mem_cons_self x xs, by rw [hfx, hy]⟩
        · obtain ⟨w, hw, hfw⟩ := ih hxs y hy
          exact ⟨w, List.mem_cons_of_mem x hw, hfw⟩

lemma base_coverage_points_nonneg (rt : RadioType) (sl : SignalLevel) (q : ℚ)
    (h : rt.base_coverage_points sl = some q) : 0 ≤ q := by
  cases rt <;> cases sl <;>
    simp only [RadioType.base_coverage_points, Option.some.injEq,
      reduceCtorEq] at h <;>
    first
      | exact absurd h (by simp)
      | (subst h; norm_num)

lemma assignments_multiplier_nonneg (a : Assignments) : 0 ≤ a.multiplier := by
  obtain ⟨f, l, u⟩ := a
  cases f <;> cases l <;> cases u <;> norm_num [Assignments.multiplier]

lemma rank_multipliers_getD_nonneg (rt : RadioType) (i : ℕ) :
    0 ≤ rt.rank_multipliers.getD i 0 := by
  cases rt <;> rcases i with _ | _ | _ | i <;>
    norm_num [RadioType.rank_multipliers, List.getD]

lemma hex_boosting_multiplier_nonneg (radio : RewardableRadio) (hex : CoveredHex) :
    0 ≤ radio.hex_boosting_multiplier hex := by
  rw [RewardableRadio.hex_boosting_multiplier]
  split
  · cases hex.boosted with
    | none => norm_num
    | some b => positivity
  · norm_num

lemma hexPoint_nonneg (radio : RewardableRadio) (hex : CoveredHex) (q : ℚ)
    (h : hexPoint radio hex = some q) : 0 ≤ q := by
  rw [hexPoint] at h
  cases hb : radio.radio_type.base_coverage_points hex.signal_level with
  | none => rw [hb] at h; cases h
  | some b =>
    rw [hb] at h
    have hq : b * hex.assignments.multiplier
        * radio.radio_type.rank_multipliers.getD (hex.rank.val - 1) 0
        * radio.hex_boosting_multiplier hex = q := by simpa using h
    rw [← hq]
    have h1 := base_coverage_points_nonneg radio.radio_type hex.signal_level b hb
    have h2 := assignments_multiplier_nonneg hex.assignments
    have h3 := rank_multipliers_getD_nonneg radio.radio_type (hex.rank.val - 1)
    have h4 := hex_boosting_multiplier_nonneg radio hex
    positivity

lemma location_trust_multiplier_nonneg (radio : RewardableRadio) (lt : ℚ)
    (h : radio.location_trust_multiplier = some lt)
    (htrust : ∀ l ∈ radio.location_trust_scores, 0 ≤ l.trust_score) : 0 ≤ lt := by
  obtain ⟨rt, sts, lts, v, hx⟩ := radio
  have hsum : ∀ g : LocationTrust → ℚ, (∀ l ∈ lts, 0 ≤ g l) →
      (0:ℚ) ≤ (lts.map g).sum := by
    intro g hg
    apply List.sum_nonneg
    intro q hq
    obtain ⟨l, hl, rfl⟩ := List.mem_map.mp hq
    exact hg l hl
  cases rt <;> simp only [RewardableRadio.location_trust_multiplier] at h
  case indoorCbrs | outdoorCbrs =>
    cases h; norm_num
  all_goals
    (split at h
     · cases h
     · cases h
       apply div_nonneg _ (by positivity)
       split
       · apply hsum
         intro l hl
         split
         · exact le_min (by norm_num) (htrust l hl)
         · exact htrust l hl
       · exact hsum _ fun l hl => htrust l hl)

lemma speedtest_multiplier_nonneg (radio : RewardableRadio) :
    0 ≤ radio.speedtest_multiplier := by
  rw [RewardableRadio.speedtest_multiplier]
  split
  · norm_num [SpeedtestTier.multiplier]
  · cases (Speedtest.avg radio.speedtests).tier <;> norm_num [SpeedtestTier.multiplier]

lemma roundDp2ToZero_nonneg {q : ℚ} (h : 0 ≤ q) : 0 ≤ roundDp2ToZero q := by
  rw [roundDp2ToZero, if_pos (by positivity)]
  have : (0:ℚ) ≤ (⌊q * 100⌋ : ℚ) := by
    exact_mod_cast Int.floor_nonneg.mpr (by positivity)
  positivity

lemma roundDp2ToZero_le {q : ℚ} (h : 0 ≤ q) : roundDp2ToZero q ≤ q := by
  rw [roundDp2ToZero, if_pos (by positivity)]
  have h1 : ((⌊q * 100⌋ : ℚ)) ≤ q * 100 := Int.floor_le _
  have h2 : ((⌊q * 100⌋ : ℚ)) / 100 ≤ (q * 100) / 100 := by
    apply div_le_div_of_nonneg_right h1 (by norm_num)
  calc ((⌊q * 100⌋ : ℚ)) / 100 ≤ (q * 100) / 100 := h2
    _ = q := by ring

lemma roundDp2ToZero_mul_den {q : ℚ} (h : 0 ≤ q) :
    (roundDp2ToZero q * 100).den = 1 := by
  rw [roundDp2ToZero, if_pos (by positivity)]
  rw [div_mul_cancel₀ _ (by norm_num : (100:ℚ) ≠ 0)]
  exact Rat.den_intCast _

/-- C9: a successful calculation is nonnegative (under the data-model
invariant that trust scores are nonnegative), carries at most 2 decimal
digits, and is the truncation toward zero of the untruncated product, so
it never exceeds it. -/
theorem claim_C9 (radio : RewardableRadio) (cp : ℚ)
    (hcp : covPoints radio = some cp)
    (htrust : ∀ l ∈ radio.location_trust_scores, 0 ≤ l.trust_score) :
    0 ≤ cp ∧ (cp * 100).den = 1 ∧
    ∀ raw, rawCoverage radio = some raw →
      cp = roundDp2ToZero raw ∧ cp ≤ raw := by
  rw [covPoints, calculate_coverage_points] at hcp
  cases hchp : covered_hex_points radio with
  | none =>
    rw [hchp] at hcp
    cases hltm : radio.location_trust_multiplier <;> rw [hltm] at hcp <;> cases hcp
  | some points =>
    cases hltm : radio.location_trust_multiplier with
    | none => rw [hchp, hltm] at hcp; cases hcp
    | some lt =>
      rw [hchp, hltm] at hcp
      have hcpeq : roundDp2ToZero (points.sum * lt * radio.speedtest_multiplier)
          = cp := by simpa using hcp
      have hsumnn : (0:ℚ) ≤ points.sum := by
        apply List.sum_nonneg
        intro q hq
        obtain ⟨hex, _, hfx⟩ :=
          optionTraverse_mem_some hchp q hq
        exact hexPoint_nonneg radio hex q hfx
      have hltnn : 0 ≤ lt := location_trust_multiplier_nonneg radio lt hltm htrust
      have hstnn := speedtest_multiplier_nonneg radio
      have hrawnn : 0 ≤ points.sum * lt * radio.speedtest_multiplier := by positivity
      refine ⟨?_, ?_, ?_⟩
      · rw [← hcpeq]; exact roundDp2ToZero_nonneg hrawnn
      · rw [← hcpeq]; exact roundDp2ToZero_mul_den hrawnn
      · intro raw hraw
        rw [rawCoverage, hchp, hltm] at hraw
        have hraweq : points.sum * lt * radio.speedtest_multiplier = raw := by
          simpa using hraw
        rw [← hraweq, ← hcpeq]
        exact ⟨rfl, roundDp2ToZero_le hrawnn⟩

/-- Witness for C9 at the concrete 400-point radio. -/
theorem claim_C9_witness :
    (0:ℚ) ≤ 400 ∧ ((400:ℚ) * 100).den = 1 ∧
    ∀ raw, rawCoverage c1rad = some raw →
      (400:ℚ) = roundDp2ToZero raw ∧ (400:ℚ) ≤ raw :=
  claim_C9 c1rad 400
    (by norm_num [covPoints, calculate_coverage_points, covered_hex_points, optionTraverse,
      hexPoint, c1rad, hexHighR1, bestAssign, goodTests, trustNear,
      RadioType.base_coverage_points, RadioType.rank_multipliers,
      Assignments.multiplier, RewardableRadio.hex_boosting_multiplier,
      RewardableRadio.location_trust_multiplier, RewardableRadio.any_hexes_boosted,
      RewardableRadio.speedtest_multiplier, Speedtest.avg, Speedtest.tier,
      SpeedtestTier.multiplier, roundDp2ToZero, List.filter])
    (by
      intro l hl
      simp only [c1rad, trustNear] at hl
      rcases List.mem_singleton.mp hl with rfl
      norm_num)

/-! ## Epoch scheduler (src/poc_mobile_verifier/src/verifier.rs) -/

/-- The three durable checkpoints of the verifier daemon
(verifier.rs `VerifierDaemon`), Unix timestamps in whole seconds. -/
structure SchedulerCheckpoints where
  last_verified_end_time : ℤ
  last_rewarded_end_time : ℤ
  next_rewarded_end_time : ℤ
deriving DecidableEq

/-- What one iteration of `VerifierDaemon::run` decides: the verification
epoch if a verification pass runs, the reward epoch if a reward pass runs,
and the sleep duration. -/
structure IterationPlan where
  verify : Option (ℤ × ℤ)
  reward : Option (ℤ × ℤ)
  sleep : ℤ
deriving DecidableEq

/-- One loop iteration of `VerifierDaemon::run` (verifier.rs lines 36-92):
compute the elapsed time since the last verification, run a verification
pass when a full verification period elapsed or the reward boundary was
reached, clamp its epoch at the reward boundary, run a reward pass when
the boundary was reached, and cut the sleep at the boundary otherwise. -/
def runIteration (verification_period : ℤ) (st : SchedulerCheckpoints)
    (now : ℤ) : IterationPlan :=
  let epoch_since_last_verify_duration := now - st.last_verified_end_time
  let verifyPart : Option (ℤ × ℤ) × ℤ :=
    if verification_period ≤ epoch_since_last_verify_duration
        ∨ st.next_rewarded_end_time ≤ now then
      let epoch_duration := min epoch_since_last_verify_duration verification_period
      (some (st.last_verified_end_time,
         min (st.last_verified_end_time + epoch_duration) st.next_rewarded_end_time),
       if verification_period < epoch_since_last_verify_duration - epoch_duration
       then 0 else verification_period)
    else (Option.none, verification_period - epoch_since_last_verify_duration)
  let reward : Option (ℤ × ℤ) :=
    if st.next_rewarded_end_time ≤ now then
      some (st.last_rewarded_end_time, st.next_rewarded_end_time)
    else Option.none
  let sleep : ℤ :=
    if st.next_rewarded_end_time ≤ now then verifyPart.2
    else if st.next_rewarded_end_time ≤ now + verifyPart.2 then
      st.next_rewarded_end_time - now
    else verifyPart.2
  ⟨verifyPart.1, reward, sleep⟩

/-- C6: a verification pass runs exactly when a full verification period
elapsed since the last verification or now reached the next reward
boundary; its epoch starts at the last verified end time and ends at
min(last verified end + min(elapsed, verification period), next reward
boundary), hence never past the reward boundary. -/
theorem claim_C6 (vp : ℤ) (st : SchedulerCheckpoints) (now : ℤ) :
    ((runIteration vp st now).verify.isSome ↔
      (vp ≤ now - st.last_verified_end_time ∨ st.next_rewarded_end_time ≤ now)) ∧
    ∀ e, (runIteration vp st now).verify = some e →
      e.1 = st.last_verified_end_time ∧
      e.2 = min (st.last_verified_end_time
              + min (now - st.last_verified_end_time) vp)
            st.next_rewarded_end_time ∧
      e.2 ≤ st.next_rewarded_end_time := by
  by_cases h : vp ≤ now - st.last_verified_end_time ∨ st.next_rewarded_end_time ≤ now
  · constructor
    · simp [runIteration, h]
    · intro e he
      simp only [runIteration, if_pos h] at he
      cases he
      exact ⟨rfl, rfl, min_le_right _ _⟩
  · constructor
    · simp [runIteration, h]
    · intro e he
      simp only [runIteration, if_neg h] at he
      cases he

/-- Witness for C6: at verification period 10, checkpoints (0, 0, 100) and
now 12, the pass runs over the epoch (0, 10). -/
theorem claim_C6_witness :
    ((0:ℤ), (10:ℤ)).1 = (0:ℤ) ∧
    ((0:ℤ), (10:ℤ)).2 = min ((0:ℤ) + min (12 - 0) 10) 100 ∧
    ((0:ℤ), (10:ℤ)).2 ≤ (100:ℤ) :=
  (claim_C6 10 ⟨0, 0, 100⟩ 12).2 (0, 10) (by decide)

/-- The steps of `VerifierDaemon::reward_epoch` (verifier.rs lines
122-158), in program order. -/
inductive RewardStep
  | loadHeartbeats
  | computeRewards
  | beginTx
  | truncateHeartbeats
  | setLastRewarded
  | setNextRewarded
  | commitTx
  | writeRewards
  | awaitDurable
deriving DecidableEq

def rewardEpochSteps : List RewardStep :=
  [.loadHeartbeats, .computeRewards, .beginTx, .truncateHeartbeats,
   .setLastRewarded, .setNextRewarded, .commitTx, .writeRewards, .awaitDurable]

/-- The durable database state touched by the reward pass: the heartbeat
table (abstract records) and the checkpoint triple. -/
structure RewardDb where
  heartbeats : List ℤ
  checkpoints : SchedulerCheckpoints
deriving DecidableEq

/-- Modelled from the spec: the transactional semantics of the database
(sections 4.2 and 5 of the spec): writes between begin and commit gather
in a pending buffer and reach the durable state only at commit. -/
structure RewardRun where
  db : RewardDb
  pending : Option RewardDb
  emitted : Bool
  durableConfirmed : Bool
deriving DecidableEq

def modPending (s : RewardRun) (f : RewardDb → RewardDb) : RewardRun :=
  match s.pending with
  | some db => { s with pending := some (f db) }
  | Option.none => s

/-- One step of `reward_epoch` acting on the run state: `epochEnd` is the
reward epoch's end, `reward_period` the configured period in seconds. -/
def applyRewardStep (reward_period epochEnd : ℤ) (s : RewardRun) :
    RewardStep → RewardRun
  | .loadHeartbeats => s
  | .computeRewards => s
  | .beginTx => { s with pending := some s.db }
  | .truncateHeartbeats => modPending s fun db => { db with heartbeats := [] }
  | .setLastRewarded => modPending s fun db =>
      { db with checkpoints.last_rewarded_end_time := epochEnd }
  | .setNextRewarded => modPending s fun db =>
      { db with checkpoints.next_rewarded_end_time := epochEnd + reward_period }
  | .commitTx =>
    match s.pending with
    | some db => { s with db := db, pending := Option.none }
    | Option.none => s
  | .writeRewards => { s with emitted := true }
  | .awaitDurable => { s with durableConfirmed := true }

def initRewardRun (db : RewardDb) : RewardRun := ⟨db, Option.none, false, false⟩

/-- Execute the first `k` steps of the reward pass: a failure at step
`k` (0-based) leaves exactly this state behind. The commit is step 6, so a
run with `k ≤ 6` failed before the commit completed. -/
def runRewardPrefix (reward_period epochEnd : ℤ) (db : RewardDb) (k : ℕ) : RewardRun :=
  (rewardEpochSteps.take k).foldl (applyRewardStep reward_period epochEnd)
    (initRewardRun db)

/-- C7: a failure before the commit completes leaves the heartbeat table
and all three checkpoints unchanged and nothing emitted; the completed
pass leaves the heartbeat table empty, the last rewarded end time at the
epoch's end, the next at one reward period later, the verification
checkpoint untouched, and the rewards emitted with the durable write
confirmed; rewards are emitted only with the transaction committed; and
the durable-write confirmation happens only after the emission. -/
theorem claim_C7 (rp e : ℤ) (db : RewardDb) :
    (∀ k, k ≤ 6 → (runRewardPrefix rp e db k).db = db ∧
      (runRewardPrefix rp e db k).emitted = false) ∧
    ((runRewardPrefix rp e db 9).db
        = ⟨[], ⟨db.checkpoints.last_verified_end_time, e, e + rp⟩⟩ ∧
      (runRewardPrefix rp e db 9).emitted = true ∧
      (runRewardPrefix rp e db 9).durableConfirmed = true) ∧
    (∀ k, (runRewardPrefix rp e db k).emitted = true →
      (runRewardPrefix rp e db k).db
        = ⟨[], ⟨db.checkpoints.last_verified_end_time, e, e + rp⟩⟩) ∧
    (∀ k, (runRewardPrefix rp e db k).durableConfirmed = true →
      (runRewardPrefix rp e db k).emitted = true) := by
  obtain ⟨hb, lv, lr, nr⟩ := db
  have hbig : ∀ k, rewardEpochSteps.take (k + 9) = rewardEpochSteps := by
    intro k
    apply List.take_of_length_le
    simp [rewardEpochSteps]
  have hstab : ∀ n, runRewardPrefix rp e ⟨hb, ⟨lv, lr, nr⟩⟩ (n + 9)
      = runRewardPrefix rp e ⟨hb, ⟨lv, lr, nr⟩⟩ 9 := by
    intro n
    unfold runRewardPrefix
    rw [hbig n]
    rfl
  refine ⟨?_, ⟨rfl, rfl, rfl⟩, ?_, ?_⟩
  · intro k hk
    interval_cases k <;> exact ⟨rfl, rfl⟩
  · intro k hk
    match k with
    | 0 | 1 | 2 | 3 | 4 | 5 | 6 | 7 => cases hk
    | 8 => rfl
    | n + 9 =>
      rw [hstab n]
      rfl
  · intro k hk
    match k with
    | 0 | 1 | 2 | 3 | 4 | 5 | 6 | 7 | 8 => cases hk
    | n + 9 =>
      rw [hstab n]
      rfl

/-- Witness for C7: a concrete run that fails after 4 steps leaves the
database untouched and nothing emitted. -/
theorem claim_C7_witness :
    (runRewardPrefix 3600 100 ⟨[1, 2], ⟨7, 8, 9⟩⟩ 4).db = ⟨[1, 2], ⟨7, 8, 9⟩⟩ ∧
    (runRewardPrefix 3600 100 ⟨[1, 2], ⟨7, 8, 9⟩⟩ 4).emitted = false :=
  (claim_C7 3600 100 ⟨[1, 2], ⟨7, 8, 9⟩⟩).1 4 (by decide)

end Oracles
